import Mathlib

/-!
Verification of the RCPSP (resource-constrained project scheduling) solver
in `solver.py`.  The solver builds a CP-SAT model (interval variables,
precedence constraints, cumulative resource constraints, a minimized
makespan) and reads the solution back.  We embed the problem data, the
constraint system built by `RCPSPSolver.solve`, and the result handling,
and prove the specification's claims about them.
-/

namespace RCPSP

/-- A task record: `{id, name, duration, resource_req}` where `resource_req`
is a dict from resource id to demanded quantity (embedded as an
association list). -/
structure Task where
  id : Nat
  name : String
  duration : Nat
  resource_req : List (Nat × Nat)
deriving DecidableEq, Repr

/-- A resource record: `{id, name, capacity}`. -/
structure Resource where
  id : Nat
  name : String
  capacity : Nat
deriving DecidableEq, Repr

/-- The three inputs of `RCPSPSolver.__init__`: tasks, resources and
dependency pairs `(predecessor_id, successor_id)`. -/
structure Problem where
  tasks : List Task
  resources : List Resource
  dependencies : List (Nat × Nat)
deriving DecidableEq, Repr

/-- Python's `dict.get(k, 0)` on an association list. -/
def dictGet (d : List (Nat × Nat)) (k : Nat) : Nat :=
  match d.find? (fun p => p.1 == k) with
  | some p => p.2
  | none => 0

/-- `max_makespan = sum(t["duration"] for t in self.tasks)`: the horizon
used to bound every variable domain in `solve`. -/
def maxMakespan (p : Problem) : Nat :=
  (p.tasks.map (fun t => t.duration)).sum

/-- A valuation of the CP-SAT variables created by `solve`: a start and an
end value per task id, plus the value of the `makespan` variable.
(All domains are `[0, max_makespan]`, so values are naturals.) -/
structure Assignment where
  start : Nat → Nat
  finish : Nat → Nat
  makespan : Nat

/-- Total demand on resource `rid` at time `t` from the intervals the code
puts into `AddCumulative`: `solve` only collects tasks whose
`resource_req.get(res_id, 0)` is positive. -/
def cumulDemand (tasks : List Task) (σ : Assignment) (rid t : Nat) : Nat :=
  ((tasks.filter (fun tk =>
      decide (0 < dictGet tk.resource_req rid ∧
        σ.start tk.id ≤ t ∧ t < σ.finish tk.id))).map
    (fun tk => dictGet tk.resource_req rid)).sum

/-- Total demand on resource `rid` at time `t` from ALL tasks whose
`[start, end)` interval contains `t` — the quantity in invariant 2 of the
spec (no positivity filter). -/
def totalDemand (tasks : List Task) (σ : Assignment) (rid t : Nat) : Nat :=
  ((tasks.filter (fun tk =>
      decide (σ.start tk.id ≤ t ∧ t < σ.finish tk.id))).map
    (fun tk => dictGet tk.resource_req rid)).sum

/-- Value of the `AddMaxEquality` right-hand side: maximum of the end
variables over all tasks (0 when there are none). -/
def maxEnd (tasks : List Task) (σ : Assignment) : Nat :=
  (tasks.map (fun tk => σ.finish tk.id)).foldr max 0

/-- The constraint system `RCPSPSolver.solve` builds, as a satisfaction
predicate on valuations:
* domains `start, end ∈ [0, max_makespan]` from `NewIntVar`;
* `end = start + duration` from `NewIntervalVar`;
* `starts[succ] >= ends[pred]` for every dependency;
* `AddCumulative(ints, demands, capacity)` per resource, over the tasks
  with positive demand (at every integer time point);
* `makespan ∈ [0, max_makespan]` and `AddMaxEquality(makespan, ends)`. -/
def SatisfiesModel (p : Problem) (σ : Assignment) : Prop :=
  (∀ tk ∈ p.tasks,
      σ.start tk.id ≤ maxMakespan p ∧
      σ.finish tk.id ≤ maxMakespan p ∧
      σ.finish tk.id = σ.start tk.id + tk.duration) ∧
  (∀ d ∈ p.dependencies, σ.finish d.1 ≤ σ.start d.2) ∧
  (∀ r ∈ p.resources, ∀ t : Nat, cumulDemand p.tasks σ r.id t ≤ r.capacity) ∧
  σ.makespan ≤ maxMakespan p ∧
  σ.makespan = maxEnd p.tasks σ

/-- Bounded variant of `SatisfiesModel`: the cumulative constraint is only
checked below the horizon (equivalent, since every interval lies inside
`[0, max_makespan]`; used for decidability). -/
def SatisfiesModelB (p : Problem) (σ : Assignment) : Prop :=
  (∀ tk ∈ p.tasks,
      σ.start tk.id ≤ maxMakespan p ∧
      σ.finish tk.id ≤ maxMakespan p ∧
      σ.finish tk.id = σ.start tk.id + tk.duration) ∧
  (∀ d ∈ p.dependencies, σ.finish d.1 ≤ σ.start d.2) ∧
  (∀ r ∈ p.resources, ∀ t : Nat, t < maxMakespan p →
      cumulDemand p.tasks σ r.id t ≤ r.capacity) ∧
  σ.makespan ≤ maxMakespan p ∧
  σ.makespan = maxEnd p.tasks σ

/-- The CP-SAT termination statuses consulted by `solve`
(`cp_model.OPTIMAL`, `cp_model.FEASIBLE`, `cp_model.INFEASIBLE`;
`unknown` is what the solver reports when the time budget elapses with no
incumbent). -/
inductive CpStatus where
  | optimal
  | feasible
  | infeasible
  | modelInvalid
  | unknown
deriving DecidableEq, Repr

/-- The test `status in (cp_model.OPTIMAL, cp_model.FEASIBLE)` at line 78. -/
def CpStatus.isSuccess : CpStatus → Bool
  | .optimal => true
  | .feasible => true
  | _ => false

/-- What `solver.Solve(model)` hands back to `solve`: a termination status
and the variable valuation read via `solver.Value`. -/
structure CpResult where
  status : CpStatus
  assignment : Assignment

/-- Soundness of the external CP-SAT call on problem `p`: whenever it
reports OPTIMAL or FEASIBLE, the values it returns satisfy the model that
`solve` built. -/
def SoundResult (p : Problem) (r : CpResult) : Prop :=
  r.status.isSuccess = true → SatisfiesModel p r.assignment

/-- One entry of the `task_schedule` dict in the stored solution. -/
structure TaskSched where
  name : String
  start : Nat
  finish : Nat
  duration : Nat
deriving DecidableEq, Repr

/-- The solution dict `solve` stores: either
`{"status": "SUCCESS", "makespan": …, "task_schedule": …}` or
`{"status": "FAILED"}`. -/
inductive Solution where
  | success (makespan : Nat) (task_schedule : List (Nat × TaskSched))
  | failed
deriving DecidableEq, Repr

/-- The `"status"` field of a stored solution dict. -/
def Solution.status : Solution → String
  | .success _ _ => "SUCCESS"
  | .failed => "FAILED"

/-- The `RCPSPSolver` object: the three inputs stored by `__init__` plus
the `_solution` slot (initially `None`). -/
structure RCPSPSolver where
  tasks : List Task
  resources : List Resource
  dependencies : List (Nat × Nat)
  _solution : Option Solution
deriving DecidableEq, Repr

/-- `RCPSPSolver.__init__`: store the inputs, set `_solution = None`. -/
def RCPSPSolver.init (tasks : List Task) (resources : List Resource)
    (dependencies : List (Nat × Nat)) : RCPSPSolver :=
  ⟨tasks, resources, dependencies, none⟩

/-- The problem instance a solver object holds. -/
def RCPSPSolver.problem (s : RCPSPSolver) : Problem :=
  ⟨s.tasks, s.resources, s.dependencies⟩

/-- `RCPSPSolver.solve`, with the external `solver.Solve(model)` call
abstracted as the `CpResult` argument: on OPTIMAL/FEASIBLE it stores the
SUCCESS dict (makespan value plus the per-task schedule built from the
`solver.Value` readings) and returns `True`; otherwise it stores
`{"status": "FAILED"}` and returns `False`. -/
def RCPSPSolver.solve (s : RCPSPSolver) (r : CpResult) : Bool × RCPSPSolver :=
  if r.status.isSuccess then
    (true, { s with _solution := some (Solution.success r.assignment.makespan
        (s.tasks.map (fun t =>
          (t.id, ⟨t.name, r.assignment.start t.id, r.assignment.finish t.id,
            t.duration⟩)))) })
  else
    (false, { s with _solution := some Solution.failed })

/-- The `solution` property accessor. -/
def RCPSPSolver.solution (s : RCPSPSolver) : Option Solution :=
  s._solution

/-- The `makespan()` convenience accessor: Python returns the stored
makespan when `self._solution` is truthy and its `"status"` is
`"SUCCESS"` (i.e. exactly on a stored success dict), and `None`
otherwise. -/
def RCPSPSolver.makespan (s : RCPSPSolver) : Option Nat :=
  match s._solution with
  | some (.success m _) => some m
  | _ => none

/-- One round-at-a-time Kahn elimination with explicit fuel: repeatedly
delete every edge leaving a node with no incoming edge; the edge set is
acyclic iff everything gets deleted. -/
def acyclicAux : Nat → List (Nat × Nat) → Bool
  | 0, edges => edges.isEmpty
  | fuel + 1, edges =>
    let tgts := edges.map (fun e => e.2)
    let roots := (edges.map (fun e => e.1)).filter (fun s => !(tgts.contains s))
    if roots.isEmpty then edges.isEmpty
    else acyclicAux fuel (edges.filter (fun e => !(roots.contains e.1)))

/-- The spec's structural requirement that the dependency pairs form a DAG
(the code itself never checks this; the predicate states the claims'
validity precondition). -/
def Acyclic (edges : List (Nat × Nat)) : Prop :=
  acyclicAux edges.length edges = true

instance (edges : List (Nat × Nat)) : Decidable (Acyclic edges) := by
  unfold Acyclic; infer_instance

/-- The claims' validity precondition on an instance: positive durations,
positive capacities, dependencies over known task ids, acyclic
dependencies. -/
def ValidProblem (p : Problem) : Prop :=
  (∀ tk ∈ p.tasks, 0 < tk.duration) ∧
  (∀ r ∈ p.resources, 0 < r.capacity) ∧
  (∀ d ∈ p.dependencies, d.1 ∈ p.tasks.map (fun tk => tk.id) ∧
    d.2 ∈ p.tasks.map (fun tk => tk.id)) ∧
  Acyclic p.dependencies

/-- A precedence chain: a list of tasks in which each consecutive pair is a
dependency edge. -/
def IsChainT (deps : List (Nat × Nat)) : List Task → Prop
  | [] => True
  | [_] => True
  | a :: b :: rest => (a.id, b.id) ∈ deps ∧ IsChainT deps (b :: rest)

/-- `m` is the optimal makespan of `p`: some valuation satisfying the model
attains it, and no satisfying valuation does better.  This is the value
CP-SAT reports on an OPTIMAL outcome (line 81 reads it back). -/
def IsOptimalMakespan (p : Problem) (m : Nat) : Prop :=
  (∃ σ : Assignment, SatisfiesModel p σ ∧ σ.makespan = m) ∧
  (∀ σ : Assignment, SatisfiesModel p σ → m ≤ σ.makespan)

/-- `p₂` is `p₁` with the same tasks and dependencies and pointwise
no-larger resource capacities (same ids and names). -/
def Tightening (p₁ p₂ : Problem) : Prop :=
  p₂.tasks = p₁.tasks ∧ p₂.dependencies = p₁.dependencies ∧
  List.Forall₂ (fun r₁ r₂ : Resource =>
    r₂.id = r₁.id ∧ r₂.name = r₁.name ∧ r₂.capacity ≤ r₁.capacity)
    p₁.resources p₂.resources

/-- The Python default of the single configuration parameter:
`def solve(self, time_limit: float = 30.0)` (seconds, embedded as ℚ). -/
def defaultTimeLimit : ℚ := 30

/-- The `max_time_in_seconds` parameter `solve` installs on the CP-SAT
solver, as a function of the (optionally omitted) `time_limit` argument.
`none` on the right would mean the CP-SAT default (no finite budget:
run to completion); line 75 unconditionally assigns the argument, so the
result is always a finite cap `some v` — `some 30` when the caller omitted
the argument. -/
def maxTimeInSeconds (timeLimit : Option ℚ) : Option ℚ :=
  some (timeLimit.getD defaultTimeLimit)

instance (p : Problem) : Decidable (ValidProblem p) := by
  unfold ValidProblem; infer_instance

instance instDecIsChainT (deps : List (Nat × Nat)) :
    (chain : List Task) → Decidable (IsChainT deps chain)
  | [] => isTrue trivial
  | [_] => isTrue trivial
  | _ :: b :: rest =>
    @instDecidableAnd _ _ _ (instDecIsChainT deps (b :: rest))

instance (p : Problem) (σ : Assignment) : Decidable (SatisfiesModelB p σ) := by
  unfold SatisfiesModelB; infer_instance

instance (p : Problem) (σ : Assignment) : Decidable (SatisfiesModel p σ) :=
  decidable_of_iff (SatisfiesModelB p σ) (by
    constructor
    · rintro ⟨h1, h2, h3, h4, h5⟩
      refine ⟨h1, h2, ?_, h4, h5⟩
      intro r hr t
      by_cases ht : t < maxMakespan p
      · exact h3 r hr t ht
      · have hnil : p.tasks.filter (fun tk =>
            decide (0 < dictGet tk.resource_req r.id ∧
              σ.start tk.id ≤ t ∧ t < σ.finish tk.id)) = [] := by
          refine List.eq_nil_iff_forall_not_mem.mpr (fun tk htk => ?_)
          have hmem := List.mem_filter.mp htk
          have hprop := of_decide_eq_true hmem.2
          have hfin := (h1 tk hmem.1).2.1
          omega
        have hz : cumulDemand p.tasks σ r.id t = 0 := by
          unfold cumulDemand; rw [hnil]; rfl
        rw [hz]; exact Nat.zero_le _
    · rintro ⟨h1, h2, h3, h4, h5⟩
      exact ⟨h1, h2, fun r hr t _ => h3 r hr t, h4, h5⟩)

/-- Concrete instance (spec scenario 2): two independent tasks of durations
3 and 4, each demanding one unit of a capacity-1 resource. -/
def pEx : Problem :=
  ⟨[⟨1, "A", 3, [(1, 1)]⟩, ⟨2, "B", 4, [(1, 1)]⟩], [⟨1, "R", 1⟩], []⟩

/-- A serialized optimal valuation of `pEx`: task 1 on `[0,3)`, task 2 on
`[3,7)`, makespan 7. -/
def asgEx : Assignment :=
  ⟨fun i => if i = 2 then 3 else 0, fun i => if i = 2 then 7 else 3, 7⟩

/-- Concrete chain instance: tasks of durations 5 and 3 with dependency
`1 → 2`. -/
def pChain : Problem :=
  ⟨[⟨1, "a", 5, []⟩, ⟨2, "b", 3, []⟩], [⟨1, "R", 1⟩], [(1, 2)]⟩

/-- The sequential valuation of `pChain`: task 1 on `[0,5)`, task 2 on
`[5,8)`. -/
def asgChain : Assignment :=
  ⟨fun i => if i = 2 then 5 else 0, fun i => if i = 2 then 8 else 5, 8⟩

/-- One task needing 1 unit of a capacity-2 resource. -/
def pCap2 : Problem :=
  ⟨[⟨1, "a", 1, [(1, 1)]⟩], [⟨1, "R", 2⟩], []⟩

/-- Same instance with the capacity tightened to 1. -/
def pCap1 : Problem :=
  ⟨[⟨1, "a", 1, [(1, 1)]⟩], [⟨1, "R", 1⟩], []⟩

/-- The optimal valuation of both `pCap2` and `pCap1`. -/
def asgCap : Assignment :=
  ⟨fun _ => 0, fun _ => 1, 1⟩

/-- Concrete cyclic instance (spec scenario 4): dependencies
`(1, 2), (2, 1)`. -/
def pCyc : Problem :=
  ⟨[⟨1, "t1", 1, []⟩, ⟨2, "t2", 1, []⟩], [], [(1, 2), (2, 1)]⟩

/-- The solver object built on `pCyc`. -/
def sCyc : RCPSPSolver :=
  RCPSPSolver.init pCyc.tasks pCyc.resources pCyc.dependencies

/-- The solver object built on `pEx`. -/
def sEx : RCPSPSolver :=
  RCPSPSolver.init pEx.tasks pEx.resources pEx.dependencies

/-- The all-zero valuation (a placeholder reading for failed outcomes). -/
def asg0 : Assignment :=
  ⟨fun _ => 0, fun _ => 0, 0⟩

/-- An OPTIMAL outcome carrying `asgEx`. -/
def rOpt : CpResult := ⟨.optimal, asgEx⟩

/-- A FEASIBLE (time budget hit with incumbent) outcome carrying `asgEx`. -/
def rFeas : CpResult := ⟨.feasible, asgEx⟩

/-- An INFEASIBLE outcome (search space exhausted, no schedule). -/
def rInf : CpResult := ⟨.infeasible, asg0⟩

/-- An UNKNOWN outcome (time budget elapsed with no incumbent). -/
def rUnk : CpResult := ⟨.unknown, asg0⟩

/-- An OPTIMAL outcome for `pChain` carrying `asgChain`. -/
def rChain : CpResult := ⟨.optimal, asgChain⟩

/-- The full precedence chain of `pChain` (both tasks, in order). -/
def chainEx : List Task :=
  [⟨1, "a", 5, []⟩, ⟨2, "b", 3, []⟩]

instance (p : Problem) (r : CpResult) : Decidable (SoundResult p r) := by
  unfold SoundResult; infer_instance

/-! ### Helper lemmas -/

theorem le_foldr_max (x : Nat) (l : List Nat) (h : x ∈ l) :
    x ≤ l.foldr max 0 := by
  induction l with
  | nil => cases h
  | cons a l ih =>
    rcases List.mem_cons.mp h with rfl | h2
    · exact Nat.le_max_left _ _
    · exact Nat.le_trans (ih h2) (Nat.le_max_right _ _)

theorem finish_le_maxEnd (tasks : List Task) (σ : Assignment) (tk : Task)
    (h : tk ∈ tasks) : σ.finish tk.id ≤ maxEnd tasks σ :=
  le_foldr_max _ _ (List.mem_map_of_mem _ h)

theorem finish_le_makespan {p : Problem} {σ : Assignment}
    (hm : SatisfiesModel p σ) {tk : Task} (h : tk ∈ p.tasks) :
    σ.finish tk.id ≤ σ.makespan := by
  rw [hm.2.2.2.2]; exact finish_le_maxEnd _ _ _ h

theorem duration_le_makespan {p : Problem} {σ : Assignment}
    (hm : SatisfiesModel p σ) {tk : Task} (h : tk ∈ p.tasks) :
    tk.duration ≤ σ.makespan := by
  have h1 := (hm.1 tk h).2.2
  have h2 := finish_le_makespan hm h
  omega

/-- Dropping the positivity filter does not change the summed demand:
tasks with zero demand contribute zero. -/
theorem totalDemand_eq_cumulDemand (tasks : List Task) (σ : Assignment)
    (rid t : Nat) : totalDemand tasks σ rid t = cumulDemand tasks σ rid t := by
  induction tasks with
  | nil => rfl
  | cons tk rest ih =>
    unfold totalDemand cumulDemand at ih ⊢
    rw [List.filter_cons, List.filter_cons]
    by_cases hin : σ.start tk.id ≤ t ∧ t < σ.finish tk.id
    · have hp1 : decide (σ.start tk.id ≤ t ∧ t < σ.finish tk.id) = true := by
        simp only [decide_eq_true_eq]; exact hin
      rw [if_pos hp1]
      by_cases hd : 0 < dictGet tk.resource_req rid
      · have hp2 : decide (0 < dictGet tk.resource_req rid ∧
            σ.start tk.id ≤ t ∧ t < σ.finish tk.id) = true := by
          simp only [decide_eq_true_eq]; exact ⟨hd, hin⟩
        rw [if_pos hp2]
        simp only [List.map_cons, List.sum_cons, ih]
      · have hn2 : ¬(decide (0 < dictGet tk.resource_req rid ∧
            σ.start tk.id ≤ t ∧ t < σ.finish tk.id) = true) := by
          simp only [decide_eq_true_eq]; exact fun hcon => hd hcon.1
        rw [if_neg hn2]
        have hz : dictGet tk.resource_req rid = 0 := by omega
        simp only [List.map_cons, List.sum_cons, hz, Nat.zero_add]
        exact ih
    · have hn1 : ¬(decide (σ.start tk.id ≤ t ∧ t < σ.finish tk.id) = true) := by
        simp only [decide_eq_true_eq]; exact hin
      have hn2 : ¬(decide (0 < dictGet tk.resource_req rid ∧
          σ.start tk.id ≤ t ∧ t < σ.finish tk.id) = true) := by
        simp only [decide_eq_true_eq]; exact fun hcon => hin hcon.2
      rw [if_neg hn1, if_neg hn2]
      exact ih

/-- The accumulated end time of a precedence chain: the start of its first
task plus the chain's total duration is bounded by the end of its last
task. -/
theorem chain_le_finish {p : Problem} {σ : Assignment}
    (hm : SatisfiesModel p σ) (a : Task) (rest : List Task)
    (hmem : ∀ tk ∈ a :: rest, tk ∈ p.tasks)
    (hch : IsChainT p.dependencies (a :: rest)) :
    σ.start a.id + ((a :: rest).map (fun tk => tk.duration)).sum ≤
      σ.finish ((a :: rest).getLast (List.cons_ne_nil a rest)).id := by
  induction rest generalizing a with
  | nil =>
    have hfin := (hm.1 a (hmem a (List.mem_singleton_self a))).2.2
    simp only [List.map_cons, List.map_nil, List.sum_cons, List.sum_nil,
      List.getLast_singleton]
    omega
  | cons b rest ih =>
    have hdep : (a.id, b.id) ∈ p.dependencies := hch.1
    have hprec : σ.finish a.id ≤ σ.start b.id := hm.2.1 (a.id, b.id) hdep
    have hfin := (hm.1 a (hmem a (List.mem_cons_self a _))).2.2
    have hIH := ih b (fun tk htk => hmem tk (List.mem_cons_of_mem a htk)) hch.2
    rw [List.getLast_cons (List.cons_ne_nil b rest)]
    simp only [List.map_cons, List.sum_cons] at hIH ⊢
    omega

theorem forall₂_exists_mem {α β : Type} {R : α → β → Prop}
    {l₁ : List α} {l₂ : List β} (h : List.Forall₂ R l₁ l₂) :
    ∀ a ∈ l₁, ∃ b ∈ l₂, R a b := by
  induction h with
  | nil => intro a ha; cases ha
  | cons hR hrest ih =>
    intro x hx
    rcases List.mem_cons.mp hx with rfl | hx2
    · exact ⟨_, List.mem_cons_self _ _, hR⟩
    · obtain ⟨b, hb, hRb⟩ := ih x hx2
      exact ⟨b, List.mem_cons_of_mem _ hb, hRb⟩

/-- The cyclic instance admits no satisfying valuation: the two precedence
constraints plus the positive durations are contradictory. -/
theorem pCyc_unsat (σ : Assignment) : ¬ SatisfiesModel pCyc σ := by
  rintro ⟨h1, h2, _, _, _⟩
  have hd1 : σ.finish 1 ≤ σ.start 2 := h2 (1, 2) (by decide)
  have hd2 : σ.finish 2 ≤ σ.start 1 := h2 (2, 1) (by decide)
  have ht1 : σ.finish 1 = σ.start 1 + 1 :=
    (h1 ⟨1, "t1", 1, []⟩ (by decide)).2.2
  have ht2 : σ.finish 2 = σ.start 2 + 1 :=
    (h1 ⟨2, "t2", 1, []⟩ (by decide)).2.2
  omega

/-! ### Claims -/

/-- C1: for every valid instance, if `solve` succeeds (the CP-SAT status is
OPTIMAL or FEASIBLE, so the values read back satisfy the model), the
returned schedule satisfies the four invariants: precedence
`end(p) ≤ start(s)`; for every resource and every time unit `t` below the
makespan the total demand over all tasks whose `[start, end)` interval
contains `t` stays within capacity; `end − start = duration`; and the
reported makespan equals the maximum end time. -/
theorem C1_solution_invariants (p : Problem) (r : CpResult)
    (hv : ValidProblem p) (hs : SoundResult p r)
    (hok : r.status.isSuccess = true) :
    (∀ d ∈ p.dependencies, r.assignment.finish d.1 ≤ r.assignment.start d.2) ∧
    (∀ res ∈ p.resources, ∀ t : Nat, t < r.assignment.makespan →
      totalDemand p.tasks r.assignment res.id t ≤ res.capacity) ∧
    (∀ tk ∈ p.tasks,
      r.assignment.finish tk.id - r.assignment.start tk.id = tk.duration) ∧
    r.assignment.makespan = maxEnd p.tasks r.assignment := by
  have hm := hs hok
  refine ⟨hm.2.1, ?_, ?_, hm.2.2.2.2⟩
  · intro res hres t _
    rw [totalDemand_eq_cumulDemand]
    exact hm.2.2.1 res hres t
  · intro tk htk
    have := (hm.1 tk htk).2.2
    omega

/-- Witness for C1 at the concrete instance `pEx` with the OPTIMAL outcome
`rOpt`. -/
theorem C1_witness :
    ValidProblem pEx ∧ SoundResult pEx rOpt ∧ rOpt.status.isSuccess = true ∧
    ((∀ d ∈ pEx.dependencies,
        rOpt.assignment.finish d.1 ≤ rOpt.assignment.start d.2) ∧
      (∀ res ∈ pEx.resources, ∀ t : Nat, t < rOpt.assignment.makespan →
        totalDemand pEx.tasks rOpt.assignment res.id t ≤ res.capacity) ∧
      (∀ tk ∈ pEx.tasks,
        rOpt.assignment.finish tk.id - rOpt.assignment.start tk.id =
          tk.duration) ∧
      rOpt.assignment.makespan = maxEnd pEx.tasks rOpt.assignment) :=
  ⟨by decide, by decide, by decide,
    C1_solution_invariants pEx rOpt (by decide) (by decide) (by decide)⟩

/-- C2 (amended): the stored result distinguishes only two outcomes, not
four: `solve` returns `status.isSuccess` and the stored solution's status
string is `"SUCCESS"` exactly when the CP-SAT status was OPTIMAL or
FEASIBLE and `"FAILED"` otherwise (so INFEASIBLE and a timeout with no
incumbent are indistinguishable, as are OPTIMAL and a timeout with an
incumbent). -/
theorem C2_status_collapsed (s : RCPSPSolver) (r : CpResult) :
    (s.solve r).1 = r.status.isSuccess ∧
    ((s.solve r).2)._solution.map Solution.status =
      some (if r.status.isSuccess then "SUCCESS" else "FAILED") := by
  cases h : r.status.isSuccess <;>
    simp [RCPSPSolver.solve, h, Solution.status]

/-- Counterexample for C2 as stated: the INFEASIBLE outcome and the
timeout-with-no-incumbent outcome (status UNKNOWN) produce identical
results (both `{"status": "FAILED"}`), and the OPTIMAL outcome and the
timeout-with-incumbent outcome (status FEASIBLE) both produce status
`"SUCCESS"` — the four cases collapse to two. -/
theorem C2_counterexample :
    sEx.solve rInf = sEx.solve rUnk ∧
    (sEx.solve rInf).2._solution = some Solution.failed ∧
    (sEx.solve rOpt).2._solution.map Solution.status = some "SUCCESS" ∧
    (sEx.solve rFeas).2._solution.map Solution.status = some "SUCCESS" :=
  ⟨rfl, rfl, rfl, rfl⟩

/-- C3 (amended): the code performs no cycle check; on the cyclic instance
`pCyc` the model it builds is unsatisfiable, so any sound outcome is
non-success and `solve` returns `False` with the stored
`{"status": "FAILED"}` — the cycle surfaces as an ordinary search/
infeasibility failure, not as a structural error. -/
theorem C3_cycle_reported_as_failed (r : CpResult)
    (hs : SoundResult pCyc r) :
    r.status.isSuccess = false ∧
    sCyc.solve r = (false, { sCyc with _solution := some Solution.failed }) := by
  have hns : r.status.isSuccess = false := by
    cases h : r.status.isSuccess
    · rfl
    · exact absurd (hs h) (pCyc_unsat r.assignment)
  refine ⟨hns, ?_⟩
  simp [RCPSPSolver.solve, hns]

/-- Counterexample for C3 as stated: on the 2-cycle instance no valuation
satisfies the model, and `solve` runs its normal path to completion,
storing the ordinary `{"status": "FAILED"}` result — no structural error
is raised and the cycle is reported exactly like an infeasible search. -/
theorem C3_counterexample :
    (∀ σ : Assignment, ¬ SatisfiesModel pCyc σ) ∧
    sCyc.solve rInf = (false, { sCyc with _solution := some Solution.failed }) :=
  ⟨pCyc_unsat, rfl⟩

/-- Witness for C3 (amended) at the INFEASIBLE outcome. -/
theorem C3_witness :
    SoundResult pCyc rInf ∧
    (rInf.status.isSuccess = false ∧
      sCyc.solve rInf =
        (false, { sCyc with _solution := some Solution.failed })) :=
  ⟨by decide, C3_cycle_reported_as_failed rInf (by decide)⟩

/-- C4: for every valid instance, any schedule returned by `solve` (a
model-satisfying valuation) has makespan at least the total duration of
every precedence chain — hence at least the critical-path length, the
maximum over all chains. -/
theorem C4_makespan_ge_critical_path (p : Problem) (σ : Assignment)
    (hv : ValidProblem p) (hm : SatisfiesModel p σ) (chain : List Task)
    (hmem : ∀ tk ∈ chain, tk ∈ p.tasks)
    (hch : IsChainT p.dependencies chain) :
    (chain.map (fun tk => tk.duration)).sum ≤ σ.makespan := by
  cases chain with
  | nil => simp
  | cons a rest =>
    have h := chain_le_finish hm a rest hmem hch
    have hlast : (a :: rest).getLast (List.cons_ne_nil a rest) ∈ a :: rest :=
      List.getLast_mem _
    have h2 := finish_le_makespan hm (hmem _ hlast)
    omega

/-- Witness for C4 at the concrete chain instance `pChain` with its
two-task chain of total duration 8. -/
theorem C4_witness :
    ValidProblem pChain ∧ SatisfiesModel pChain asgChain ∧
    (∀ tk ∈ chainEx, tk ∈ pChain.tasks) ∧
    IsChainT pChain.dependencies chainEx ∧
    (chainEx.map (fun tk => tk.duration)).sum ≤ asgChain.makespan :=
  ⟨by decide, by decide, by decide, by decide,
    C4_makespan_ge_critical_path pChain asgChain (by decide) (by decide)
      chainEx (by decide) (by decide)⟩

/-- C6: tightening resource capacities (same tasks and dependencies,
pointwise no-larger capacities — in particular one strictly smaller)
never decreases the optimal makespan the solver computes. -/
theorem C6_capacity_monotone (p₁ p₂ : Problem) (m₁ m₂ : Nat)
    (ht : Tightening p₁ p₂) (h₁ : IsOptimalMakespan p₁ m₁)
    (h₂ : IsOptimalMakespan p₂ m₂) : m₁ ≤ m₂ := by
  obtain ⟨σ, hσ, hmk⟩ := h₂.1
  obtain ⟨hts, hdeps, hres⟩ := ht
  have hmax : maxMakespan p₁ = maxMakespan p₂ := by
    unfold maxMakespan; rw [hts]
  have hfeas : SatisfiesModel p₁ σ := by
    obtain ⟨c1, c2, c3, c4, c5⟩ := hσ
    rw [hts] at c1 c5
    rw [hdeps] at c2
    rw [← hmax] at c1 c4
    refine ⟨c1, c2, ?_, c4, c5⟩
    intro r hr t
    obtain ⟨r', hr', hid, _, hcap⟩ := forall₂_exists_mem hres r hr
    have hc := c3 r' hr' t
    rw [hts, hid] at hc
    exact Nat.le_trans hc hcap
  have := h₁.2 σ hfeas
  omega

/-- Witness for C6: one unit-duration task demanding one unit of the only
resource; capacity 2 versus capacity 1 — both optimal makespans are 1. -/
theorem C6_witness :
    Tightening pCap2 pCap1 ∧ IsOptimalMakespan pCap2 1 ∧
    IsOptimalMakespan pCap1 1 ∧ (1 : Nat) ≤ 1 := by
  have ht : Tightening pCap2 pCap1 :=
    ⟨rfl, rfl, List.Forall₂.cons ⟨rfl, rfl, by decide⟩ List.Forall₂.nil⟩
  have h₂ : IsOptimalMakespan pCap2 1 :=
    ⟨⟨asgCap, by decide, rfl⟩,
      fun σ hm =>
        @duration_le_makespan pCap2 σ hm ⟨1, "a", 1, [(1, 1)]⟩ (by decide)⟩
  have h₁ : IsOptimalMakespan pCap1 1 :=
    ⟨⟨asgCap, by decide, rfl⟩,
      fun σ hm =>
        @duration_le_makespan pCap1 σ hm ⟨1, "a", 1, [(1, 1)]⟩ (by decide)⟩
  exact ⟨ht, h₂, h₁, C6_capacity_monotone pCap2 pCap1 1 1 ht h₂ h₁⟩

/-- C7: every value returned by a successful solve respects the variable
domains bounded by the sum of all durations: `0 ≤ start ≤ end ≤ Σ
durations` for every task, and the reported makespan is at most `Σ
durations` (the fully sequential schedule). -/
theorem C7_domains_bounded (p : Problem) (σ : Assignment)
    (hm : SatisfiesModel p σ) :
    (∀ tk ∈ p.tasks, 0 ≤ σ.start tk.id ∧ σ.start tk.id ≤ σ.finish tk.id ∧
      σ.finish tk.id ≤ (p.tasks.map (fun t => t.duration)).sum) ∧
    σ.makespan ≤ (p.tasks.map (fun t => t.duration)).sum := by
  constructor
  · intro tk htk
    have h := hm.1 tk htk
    refine ⟨Nat.zero_le _, ?_, h.2.1⟩
    omega
  · exact hm.2.2.2.1

/-- Witness for C7 at the concrete instance `pEx`. -/
theorem C7_witness :
    SatisfiesModel pEx asgEx ∧
    ((∀ tk ∈ pEx.tasks, 0 ≤ asgEx.start tk.id ∧
        asgEx.start tk.id ≤ asgEx.finish tk.id ∧
        asgEx.finish tk.id ≤ (pEx.tasks.map (fun t => t.duration)).sum) ∧
      asgEx.makespan ≤ (pEx.tasks.map (fun t => t.duration)).sum) :=
  ⟨by decide, C7_domains_bounded pEx asgEx (by decide)⟩

/-- C8 (amended): the single configuration parameter is the time budget
`time_limit`, but it defaults to 30.0 seconds and is always installed as a
finite `max_time_in_seconds` cap, so leaving it unspecified means a
30-second budget and passing zero means a zero-second budget — neither
means run-to-completion. -/
theorem C8_time_budget (tl : Option ℚ) :
    maxTimeInSeconds tl = some (tl.getD defaultTimeLimit) ∧
    defaultTimeLimit = 30 ∧ (maxTimeInSeconds tl).isSome = true :=
  ⟨rfl, rfl, rfl⟩

/-- Counterexample for C8 as stated: an unspecified time budget is mapped
to the finite 30-second cap (not to the absent cap `none` that would mean
run-to-completion), and zero is mapped to a zero-second cap. -/
theorem C8_counterexample :
    maxTimeInSeconds none = some 30 ∧ maxTimeInSeconds (some 0) = some 0 ∧
    maxTimeInSeconds none ≠ none :=
  ⟨rfl, rfl, by simp [maxTimeInSeconds]⟩

/-- C9: `solve()` returns `True` iff the stored solution's status is
`"SUCCESS"`; `makespan()` returns the stored makespan exactly when the
just-made `solve` returned `True`, and `None` otherwise — including before
any solve (where the `solution` accessor gives `None`) and after a failed
solve (where the stored solution is exactly `{"status": "FAILED"}`). -/
theorem C9_solve_makespan_accessor (tasks : List Task)
    (resources : List Resource) (deps : List (Nat × Nat))
    (s : RCPSPSolver) (r : CpResult) :
    (RCPSPSolver.init tasks resources deps).makespan = none ∧
    (RCPSPSolver.init tasks resources deps).solution = none ∧
    ((s.solve r).1 = true ↔
      ((s.solve r).2)._solution.map Solution.status = some "SUCCESS") ∧
    ((s.solve r).2).makespan =
      (if (s.solve r).1 then some r.assignment.makespan else none) ∧
    ((s.solve r).1 = false ↔
      ((s.solve r).2)._solution = some Solution.failed) := by
  cases h : r.status.isSuccess <;>
    simp [RCPSPSolver.solve, RCPSPSolver.makespan, RCPSPSolver.init,
      RCPSPSolver.solution, Solution.status, h]

/-- C10: `solve` never modifies the problem inputs — the tasks, resources
and dependencies held by the solver object are unchanged by a solve call;
only the `_solution` slot is written. -/
theorem C10_solve_preserves_inputs (s : RCPSPSolver) (r : CpResult) :
    ((s.solve r).2).tasks = s.tasks ∧
    ((s.solve r).2).resources = s.resources ∧
    ((s.solve r).2).dependencies = s.dependencies := by
  cases h : r.status.isSuccess <;> simp [RCPSPSolver.solve, h]

end RCPSP
